import Mathlib

/-!
Shallow embedding of `src/unix_peer.rs` (Unix-domain socket transport layer).

Byte strings (socket names, filesystem paths, address buffers) are modelled
as `List Nat`, one entry per byte.  The zero byte is `0`, the `@` marker is
byte `64`, the `:` separator is byte `58`.
-/

namespace UnixPeer

/-- `to_abstract` (unix_peer.rs line 149): `format!("\x00{}", x)`, i.e.
one zero byte followed by the name bytes. -/
def to_abstract (x : List Nat) : List Nat := 0 :: x

/-- Packing of a byte string into the fixed 108-byte `sun_path` buffer, as
performed by the raw-syscall builders (`dgram_peer_workaround::getfd`,
`seqpacket_connect_peer::getfd`, `seqpacket_listen_peer::getfd`):
the buffer starts zeroed (`sun_path: [0; 108]`), then
`let l = 108.min(bp.len()); sa.sun_path[..l].copy_from_slice(&bp[..l])`. -/
def packSunPath (bp : List Nat) : List Nat :=
  let l := min 108 bp.length
  bp.take l ++ List.replicate (108 - l) 0

/-- The `@`-marker substitution of the seqpacket paths:
`if sa.sun_path[0] == b'@' { sa.sun_path[0] = b'\x00' }`. -/
def atSubst : List Nat → List Nat
  | [] => []
  | b :: rest => if b = 64 then 0 :: rest else b :: rest

/-- The complete seqpacket address encoding (`seqpacket_connect_peer::getfd`):
pack into the 108-byte buffer, then substitute a leading `@` with a zero byte. -/
def seqpacketPackAddr (bp : List Nat) : List Nat := atSubst (packSunPath bp)

/-- The byte sequence a C string pointer denotes: everything before the first
zero byte (`unlink(&sa.sun_path as *const c_char)` reads `sun_path` this way). -/
def cstr (l : List Nat) : List Nat := l.takeWhile (fun b => b != 0)

/-- Result of the address/unlink phase of `seqpacket_listen_peer::getfd`:
which name (if any) was passed to `unlink`, the `sun_path` contents at the
subsequent `bind` call, and the `socklen` value `l + size_of::<sa_family_t>()`. -/
structure SeqListenPack where
  unlinked : Option (List Nat)
  sunPath : List Nat
  saLen : Nat
deriving DecidableEq

/-- Address/unlink phase of `seqpacket_listen_peer::getfd` (lines 629-647):
pack `bp` into `sun_path`; if byte 0 is `@` substitute it with zero;
otherwise, if the unlink option is set, set byte 107 to zero (in place, so the
mutation persists into `bind`) and call `unlink` on the buffer as a C string. -/
def seqpacketListenPack (unlinkOpt : Bool) (bp : List Nat) : SeqListenPack :=
  let l := min 108 bp.length
  let sp := packSunPath bp
  if sp.getD 0 0 = 64 then
    { unlinked := none, sunPath := sp.set 0 0, saLen := l + 2 }
  else if unlinkOpt then
    let sp2 := sp.set 107 0
    { unlinked := some (cstr sp2), sunPath := sp2, saLen := l + 2 }
  else
    { unlinked := none, sunPath := sp, saLen := l + 2 }

/-- Filesystem-visible actions of `unix_listen_peer` (lines 400-407), in
program order.  `removeFile` is `std::fs::remove_file`, `bindManaged` is
`UnixListener::bind`. -/
inductive LEvent
  | removeFile (p : List Nat)
  | bindManaged (p : List Nat)
deriving DecidableEq

/-- Event trace of `unix_listen_peer` up to the bind call:
`if opts.unlink_unix_socket { let _ = ::std::fs::remove_file(addr); }` followed
by `UnixListener::bind(&addr, handle)`.  The result of `remove_file` is
discarded (`let _ =`), so it is a parameter that the trace does not depend on. -/
def unix_listen_peer_events (unlinkOpt : Bool) (_removeOk : Bool) (addr : List Nat) :
    List LEvent :=
  (if unlinkOpt then [LEvent.removeFile addr] else []) ++ [LEvent.bindManaged addr]

/-! ## Half-duplex stream wrapper (`MyUnixStream`) -/

/-- Shutdown state of the shared Unix stream socket: which directions have
been shut down. -/
structure ShutState where
  readShut : Bool
  writeShut : Bool
deriving DecidableEq

/-- `MyUnixStream(Rc<UnixStream>, bool)` — the second field is the
read-half tag (`self.1`, called `i_am_read_part` in `drop`). -/
structure MyUnixStream where
  isReadHalf : Bool
deriving DecidableEq

/-- `AsyncWrite::shutdown for MyUnixStream` (lines 369-374):
`self.0.shutdown(std::net::Shutdown::Write)` — unconditionally shuts down
the write direction of the shared socket. -/
def MyUnixStream.shutdown (_h : MyUnixStream) (st : ShutState) : ShutState :=
  { st with writeShut := true }

/-- `Drop for MyUnixStream` (lines 376-383): only when `self.1` is true,
`self.0.shutdown(std::net::Shutdown::Read)` (result ignored). -/
def MyUnixStream.drop (h : MyUnixStream) (st : ShutState) : ShutState :=
  if h.isReadHalf then { st with readShut := true } else st

/-! ## Datagram peer (`DgramPeer` / `DgramPeerHandle`) -/

/-- State of the connected `UnixDatagram`: packets queued for reception and
packets already sent. -/
structure UnixDatagramSock where
  rx : List (List Nat)
  tx : List (List Nat)
deriving DecidableEq

/-- `UnixDatagram::recv`: take the next queued packet, if any. -/
def UnixDatagramSock.recv (s : UnixDatagramSock) :
    Option (List Nat) × UnixDatagramSock :=
  match s.rx with
  | [] => (none, s)
  | p :: rest => (some p, { s with rx := rest })

/-- `UnixDatagram::send`: transmit the buffer to the connected peer,
returning the byte count sent. -/
def UnixDatagramSock.send (s : UnixDatagramSock) (buf : List Nat) :
    Nat × UnixDatagramSock :=
  (buf.length, { s with tx := s.tx ++ [buf] })

/-- `DgramPeer` (lines 424-428): the socket plus the stored (unused)
oneshot-mode flag. -/
structure DgramPeer where
  s : UnixDatagramSock
  oneshot_mode : Bool
deriving DecidableEq

/-- `Read for DgramPeerHandle` (lines 533-538): delegates to `recv`. -/
def DgramPeerHandle.read (p : DgramPeer) : Option (List Nat) × DgramPeer :=
  let r := p.s.recv
  (r.1, { p with s := r.2 })

/-- `Write::write for DgramPeerHandle` (lines 541-544): delegates to `send`. -/
def DgramPeerHandle.write (p : DgramPeer) (buf : List Nat) : Nat × DgramPeer :=
  let r := p.s.send buf
  (r.1, { p with s := r.2 })

/-- `Write::flush for DgramPeerHandle` (lines 546-548): `Ok(())`. -/
def DgramPeerHandle.flush (p : DgramPeer) : Except String Unit × DgramPeer :=
  (Except.ok (), p)

/-- `AsyncWrite::shutdown for DgramPeerHandle` (lines 553-557):
`Ok(().into())` — immediate success, the socket is untouched. -/
def DgramPeerHandle.shutdown (p : DgramPeer) : Except String Unit × DgramPeer :=
  (Except.ok (), p)

/-! ## Raw socket builders: descriptor accounting

Each builder is modelled with one boolean per syscall saying whether that
call succeeds (`socket` failing means it returns `-1` and opens nothing).
The result is the `Option` descriptor the Rust `getfd` returns, paired with
the list of descriptors still open when `getfd` returns. -/

/-- `close(fd)` on the open-descriptor list. -/
def closeFd (fd : Nat) (fds : List Nat) : List Nat := fds.erase fd

/-- `dgram_peer_workaround::getfd` (lines 463-507): `socket`, `bind`
(close + `None` on failure), `connect` (close + `None` on failure). -/
def dgramWorkaroundGetfd (fd : Nat) (socketOk bindOk connectOk : Bool) :
    Option Nat × List Nat :=
  if socketOk = false then (none, [])
  else
    let fds := [fd]
    if bindOk = false then (none, closeFd fd fds)
    else if connectOk = false then (none, closeFd fd fds)
    else (some fd, fds)

/-- `seqpacket_connect_peer::getfd` (lines 561-593): `socket`, `connect`
(close + `None` on failure). -/
def seqpacketConnectGetfd (fd : Nat) (socketOk connectOk : Bool) :
    Option Nat × List Nat :=
  if socketOk = false then (none, [])
  else
    let fds := [fd]
    if connectOk = false then (none, closeFd fd fds)
    else (some fd, fds)

/-- `seqpacket_listen_peer::getfd` (lines 617-662): `socket`, `bind`
(close + `None` on failure), `listen` (close + `None` on failure). -/
def seqpacketListenGetfd (fd : Nat) (socketOk bindOk listenOk : Bool) :
    Option Nat × List Nat :=
  if socketOk = false then (none, [])
  else
    let fds := [fd]
    if bindOk = false then (none, closeFd fd fds)
    else if listenOk = false then (none, closeFd fd fds)
    else (some fd, fds)

/-! ## Datagram scheme constructors -/

/-- `split(":")` of Rust's standard library specialised to a byte string and
the one-byte separator `:` (58): maximal separator-free (possibly empty)
chunks; `n` separators yield `n + 1` chunks. -/
def splitColon : List Nat → List (List Nat)
  | [] => [[]]
  | c :: rest =>
    if c = 58 then [] :: splitColon rest
    else
      match splitColon rest with
      | h :: t => (c :: h) :: t
      | [] => [[c]]

/-- The specifier value a datagram scheme constructor produces.
`unixDgram` is the `UnixDgram(PathBuf, PathBuf)` specifier, `abstractDgram`
the `AbstractDgram(String, String)` specifier. -/
inductive DgramSpecifier
  | unixDgram (bindP connP : List Nat)
  | abstractDgram (bindN connN : List Nat)
deriving DecidableEq

/-- `UnixDgramClass` `arg_handling` (lines 123-135): split the argument on
`:`; unless there are exactly two parts, fail; otherwise build
`UnixDgram(splits[0], splits[1])`. -/
def UnixDgramClass.construct (arg : List Nat) : Except String DgramSpecifier :=
  let splits := splitColon arg
  if splits.length ≠ 2 then Except.error "Expected two colon-separted paths"
  else Except.ok (DgramSpecifier.unixDgram (splits.getD 0 []) (splits.getD 1 []))

/-- `AbstractDgramClass` `arg_handling` (lines 249-261): split the argument on
`:`; unless there are exactly two parts, fail; otherwise build
`UnixDgram(splits[0], splits[1])` — note the source constructs `UnixDgram`,
not `AbstractDgram`, here. -/
def AbstractDgramClass.construct (arg : List Nat) : Except String DgramSpecifier :=
  let splits := splitColon arg
  if splits.length ≠ 2 then Except.error "Expected two colon-separted addresses"
  else Except.ok (DgramSpecifier.unixDgram (splits.getD 0 []) (splits.getD 1 []))

/-- `Specifier::construct for UnixDgram` (lines 108-118): the bind and connect
addresses handed to `dgram_peer` are `self.0` and `self.1` verbatim. -/
def UnixDgram.constructAddrs (bindP connP : List Nat) : List Nat × List Nat :=
  (bindP, connP)

/-- `Specifier::construct for AbstractDgram` (lines 222-244): the bind and
connect addresses handed to `dgram_peer` / `dgram_peer_workaround` are
`to_abstract(&self.0)` and `to_abstract(&self.1)`. -/
def AbstractDgram.constructAddrs (bindN connN : List Nat) : List Nat × List Nat :=
  (to_abstract bindN, to_abstract connN)

/-- The (bind, connect) addresses a datagram specifier hands to the socket
layer when its `construct` runs. -/
def dgramSpecifierAddrs : DgramSpecifier → List Nat × List Nat
  | DgramSpecifier.unixDgram a b => UnixDgram.constructAddrs a b
  | DgramSpecifier.abstractDgram a b => AbstractDgram.constructAddrs a b

/-- `Specifier::construct for AbstractConnect` (lines 155-160): address handed
to `unix_connect_peer` is `to_abstract(&self.0)`. -/
def AbstractConnect.constructAddr (name : List Nat) : List Nat := to_abstract name

/-- `Specifier::construct for AbstractListen` (lines 188-196): address handed
to `unix_listen_peer` is `to_abstract(&self.0)`. -/
def AbstractListen.constructAddr (name : List Nat) : List Nat := to_abstract name

/-! ## Helper lemmas -/

theorem packSunPath_length (bp : List Nat) : (packSunPath bp).length = 108 := by
  simp only [packSunPath, List.length_append, List.length_take, List.length_replicate]
  omega

theorem atSubst_length (l : List Nat) : (atSubst l).length = l.length := by
  cases l with
  | nil => rfl
  | cons b rest => simp only [atSubst]; split <;> simp

theorem packSunPath_cons (a : Nat) (t : List Nat) :
    packSunPath (a :: t) =
      a :: (t.take (min 107 t.length) ++ List.replicate (107 - min 107 t.length) 0) := by
  have h108 : (108 : Nat) = 107 + 1 := rfl
  simp only [packSunPath, List.length_cons, h108, Nat.succ_min_succ,
    List.take_succ_cons, Nat.succ_sub_succ, List.cons_append]

theorem packSunPath_trunc (bp : List Nat) (h : 108 ≤ bp.length) :
    packSunPath bp = packSunPath (bp.take 108) := by
  have h1 : min 108 bp.length = 108 := Nat.min_eq_left h
  have h2 : (bp.take 108).length = 108 := by
    simp only [List.length_take]; omega
  simp [packSunPath, h1, h2, List.take_take]

theorem takeWhile_set_zero (p : Nat → Bool) (a : Nat) (hp : p a = false) :
    ∀ (xs : List Nat) (n : Nat), ((xs.set n a).takeWhile p) = ((xs.take n).takeWhile p)
  | [], n => by simp
  | x :: t, 0 => by simp [List.set, List.takeWhile_cons, hp]
  | x :: t, n + 1 => by
    simp only [List.set, List.take_succ_cons, List.takeWhile_cons]
    cases hx : p x with
    | false => simp
    | true => simp [takeWhile_set_zero p a hp t n]

theorem seqpacketListenPack_unlink (bp : List Nat)
    (h : (packSunPath bp).getD 0 0 ≠ 64) :
    seqpacketListenPack true bp =
      { unlinked := some (cstr ((packSunPath bp).set 107 0)),
        sunPath := (packSunPath bp).set 107 0,
        saLen := min 108 bp.length + 2 } := by
  simp only [seqpacketListenPack, if_neg h]
  exact if_pos trivial

theorem seqpacketListenPack_noUnlink (bp : List Nat) :
    (seqpacketListenPack false bp).unlinked = none := by
  simp only [seqpacketListenPack]
  split <;> rfl

theorem seqpacketListenPack_abstract (bp : List Nat)
    (h : (packSunPath bp).getD 0 0 = 64) :
    (seqpacketListenPack true bp).unlinked = none := by
  simp only [seqpacketListenPack, if_pos h]

theorem cstr_set107 (l : List Nat) : cstr (l.set 107 0) = cstr (l.take 107) := by
  simp only [cstr]
  exact takeWhile_set_zero (fun b => b != 0) 0 rfl l 107

theorem cstr_length_le : ∀ l : List Nat, (cstr l).length ≤ l.length
  | [] => by simp [cstr]
  | x :: t => by
    simp only [cstr, List.takeWhile_cons]
    cases hx : x != 0
    · simp
    · simp only [List.length_cons]
      exact Nat.succ_le_succ (cstr_length_le t)

theorem splitColon_ne_nil (l : List Nat) : splitColon l ≠ [] := by
  induction l with
  | nil => simp [splitColon]
  | cons c rest ih =>
    simp only [splitColon]
    split
    · simp
    · cases h : splitColon rest with
      | nil => simp
      | cons a t => simp

/-! ## Claim theorems -/

/-- C2: for a connected stream peer, dropping the half tagged
`is_read_half = true` shuts down the read direction of the shared socket and
nothing else; dropping the half tagged `is_read_half = false` performs no
shutdown; and the explicit shutdown operation on either half shuts down the
write direction (and nothing else), independent of which half invoked it. -/
theorem myUnixStream_half_close (st : ShutState) (h h' : MyUnixStream) :
    (MyUnixStream.drop ⟨true⟩ st).readShut = true ∧
    (MyUnixStream.drop ⟨true⟩ st).writeShut = st.writeShut ∧
    MyUnixStream.drop ⟨false⟩ st = st ∧
    (MyUnixStream.shutdown h st).writeShut = true ∧
    (MyUnixStream.shutdown h st).readShut = st.readShut ∧
    MyUnixStream.shutdown h st = MyUnixStream.shutdown h' st := by
  refine ⟨rfl, rfl, rfl, rfl, rfl, rfl⟩

/-- C8: two option states differing only in the oneshot-mode flag give
datagram peers whose operations (read, write, flush, shutdown) return the same
results and have the same effect on the socket; the flag is stored in the
handle's state but never consulted. -/
theorem dgram_oneshot_noninterference (sock : UnixDatagramSock) (b₁ b₂ : Bool)
    (buf : List Nat) :
    (DgramPeerHandle.read ⟨sock, b₁⟩).1 = (DgramPeerHandle.read ⟨sock, b₂⟩).1 ∧
    (DgramPeerHandle.read ⟨sock, b₁⟩).2.s = (DgramPeerHandle.read ⟨sock, b₂⟩).2.s ∧
    (DgramPeerHandle.read ⟨sock, b₁⟩).2.oneshot_mode = b₁ ∧
    (DgramPeerHandle.write ⟨sock, b₁⟩ buf).1 = (DgramPeerHandle.write ⟨sock, b₂⟩ buf).1 ∧
    (DgramPeerHandle.write ⟨sock, b₁⟩ buf).2.s = (DgramPeerHandle.write ⟨sock, b₂⟩ buf).2.s ∧
    (DgramPeerHandle.write ⟨sock, b₁⟩ buf).2.oneshot_mode = b₁ ∧
    (DgramPeerHandle.flush ⟨sock, b₁⟩).1 = (DgramPeerHandle.flush ⟨sock, b₂⟩).1 ∧
    (DgramPeerHandle.flush ⟨sock, b₁⟩).2.s = (DgramPeerHandle.flush ⟨sock, b₂⟩).2.s ∧
    (DgramPeerHandle.shutdown ⟨sock, b₁⟩).1 = (DgramPeerHandle.shutdown ⟨sock, b₂⟩).1 ∧
    (DgramPeerHandle.shutdown ⟨sock, b₁⟩).2.s = (DgramPeerHandle.shutdown ⟨sock, b₂⟩).2.s := by
  refine ⟨rfl, rfl, rfl, rfl, rfl, rfl, rfl, rfl, rfl, rfl⟩

/-- C9: shutdown on a datagram peer handle always returns success immediately
and leaves the underlying datagram socket state completely unchanged. -/
theorem dgram_shutdown_noop (p : DgramPeer) :
    DgramPeerHandle.shutdown p = (Except.ok (), p) := rfl

/-- C3: the raw-syscall address encoding is total (always a 108-byte buffer,
never a failure), and for any input longer than 108 bytes it equals the
encoding of the input's first 108 bytes — both for the plain packing of the
datagram workaround and for the seqpacket packing with `@` substitution. -/
theorem rawEncoding_total_trunc (bp : List Nat) :
    (packSunPath bp).length = 108 ∧
    (seqpacketPackAddr bp).length = 108 ∧
    (108 < bp.length →
      packSunPath bp = packSunPath (bp.take 108) ∧
      seqpacketPackAddr bp = seqpacketPackAddr (bp.take 108)) := by
  refine ⟨packSunPath_length bp, ?_, fun h => ?_⟩
  · rw [seqpacketPackAddr, atSubst_length, packSunPath_length]
  · have ht := packSunPath_trunc bp (le_of_lt h)
    exact ⟨ht, by rw [seqpacketPackAddr, seqpacketPackAddr, ht]⟩

/-- Witness for C3 at a 109-byte input. -/
theorem rawEncoding_total_trunc_witness :
    108 < (List.replicate 109 97).length ∧
    packSunPath (List.replicate 109 97) =
      packSunPath ((List.replicate 109 97).take 108) ∧
    seqpacketPackAddr (List.replicate 109 97) =
      seqpacketPackAddr ((List.replicate 109 97).take 108) :=
  ⟨by decide,
   ((rawEncoding_total_trunc (List.replicate 109 97)).2.2 (by decide)).1,
   ((rawEncoding_total_trunc (List.replicate 109 97)).2.2 (by decide)).2⟩

/-- C6: encoding a name through the abstract-namespace path (zero-byte
prefixing via `to_abstract`) and encoding the `@`-marked input through the
seqpacket path produce byte-identical 108-byte address buffers, for every
name, including names long enough to be truncated. -/
theorem abstract_at_marker_equiv (name : List Nat) :
    seqpacketPackAddr (64 :: name) = packSunPath (to_abstract name) := by
  simp [seqpacketPackAddr, to_abstract, packSunPath_cons, atSubst]

/-- C4: in every raw socket builder (`dgram_peer_workaround::getfd`,
`seqpacket_connect_peer::getfd`, `seqpacket_listen_peer::getfd`), whenever
any step fails and the builder returns no descriptor, every descriptor opened
earlier in that invocation has been closed — none remains open. -/
theorem raw_builder_no_fd_leak (fd : Nat) (sOk bOk cOk lOk : Bool) :
    ((dgramWorkaroundGetfd fd sOk bOk cOk).1 = none →
      (dgramWorkaroundGetfd fd sOk bOk cOk).2 = []) ∧
    ((seqpacketConnectGetfd fd sOk cOk).1 = none →
      (seqpacketConnectGetfd fd sOk cOk).2 = []) ∧
    ((seqpacketListenGetfd fd sOk bOk lOk).1 = none →
      (seqpacketListenGetfd fd sOk bOk lOk).2 = []) := by
  cases sOk <;> cases bOk <;> cases cOk <;> cases lOk <;>
    simp [dgramWorkaroundGetfd, seqpacketConnectGetfd, seqpacketListenGetfd,
      closeFd]

/-- Witness for C4: bind failure after a successful socket call leaves no
open descriptor. -/
theorem raw_builder_no_fd_leak_witness :
    (dgramWorkaroundGetfd 3 true false true).1 = none ∧
    (dgramWorkaroundGetfd 3 true false true).2 = [] :=
  ⟨by decide, (raw_builder_no_fd_leak 3 true false true true).1 (by decide)⟩

/-- C7: both datagram scheme constructors (filesystem and abstract pair)
fail with an address-parse failure, before producing any specifier, exactly
when splitting the argument on `:` does not yield two parts; with exactly two
parts the first becomes the bind address and the second the connect address. -/
theorem dgram_construct_parse (arg : List Nat) :
    ((∃ e, UnixDgramClass.construct arg = Except.error e) ↔
      (splitColon arg).length ≠ 2) ∧
    ((∃ e, AbstractDgramClass.construct arg = Except.error e) ↔
      (splitColon arg).length ≠ 2) ∧
    (∀ a b, splitColon arg = [a, b] →
      UnixDgramClass.construct arg = Except.ok (DgramSpecifier.unixDgram a b) ∧
      AbstractDgramClass.construct arg =
        Except.ok (DgramSpecifier.unixDgram a b) ∧
      dgramSpecifierAddrs (DgramSpecifier.unixDgram a b) = (a, b)) := by
  by_cases h : (splitColon arg).length = 2
  · refine ⟨?_, ?_, ?_⟩
    · simp [UnixDgramClass.construct, h]
    · simp [AbstractDgramClass.construct, h]
    · intro a b hab
      refine ⟨?_, ?_, rfl⟩
      · simp [UnixDgramClass.construct, h, hab]
      · simp [AbstractDgramClass.construct, h, hab]
  · refine ⟨?_, ?_, ?_⟩
    · simp [UnixDgramClass.construct, h]
    · simp [AbstractDgramClass.construct, h]
    · intro a b hab
      exact absurd (by rw [hab]; rfl) h

/-- Witness for C7 at the argument `"a:b"`. -/
theorem dgram_construct_parse_witness :
    splitColon [97, 58, 98] = [[97], [98]] ∧
    UnixDgramClass.construct [97, 58, 98] =
      Except.ok (DgramSpecifier.unixDgram [97] [98]) :=
  ⟨by decide,
   ((dgram_construct_parse [97, 58, 98]).2.2 [97] [98] (by decide)).1⟩

/-- C1: the abstract stream connect and listen constructors hand the socket
layer a zero byte followed by the name, but the abstract datagram pair scheme
does not: its class constructor builds the filesystem `UnixDgram` specifier
(source line 259), so at argument `"a:b"` the bind address handed down is
`"a"` with no zero-byte prefix. -/
theorem abstract_dgram_missing_zero_byte :
    AbstractDgramClass.construct [97, 58, 98] =
      Except.ok (DgramSpecifier.unixDgram [97] [98]) ∧
    dgramSpecifierAddrs (DgramSpecifier.unixDgram [97] [98]) = ([97], [98]) ∧
    (¬ ∃ n : List Nat, ([97] : List Nat) = 0 :: n) ∧
    AbstractConnect.constructAddr [97] = 0 :: [97] ∧
    AbstractListen.constructAddr [97] = 0 :: [97] := by
  refine ⟨rfl, rfl, ?_, rfl, rfl⟩
  rintro ⟨n, hn⟩
  injection hn with h1 _
  exact absurd h1 (by decide)

/-- C5 (amended): binding in `unix_listen_peer` is preceded by a removal of
the target path exactly when the unlink option is set, with the removal's
result ignored; in the raw seqpacket listen path no unlink happens when the
option is unset or the address is abstract, and otherwise the name unlinked
is the packed address truncated to at most its first 107 bytes. -/
theorem listener_unlink_behavior (addr : List Nat) (r₁ r₂ : Bool) :
    unix_listen_peer_events true r₁ addr =
      [LEvent.removeFile addr, LEvent.bindManaged addr] ∧
    unix_listen_peer_events false r₁ addr = [LEvent.bindManaged addr] ∧
    unix_listen_peer_events true r₁ addr = unix_listen_peer_events true r₂ addr ∧
    (seqpacketListenPack false addr).unlinked = none ∧
    ((packSunPath addr).getD 0 0 = 64 →
      (seqpacketListenPack true addr).unlinked = none) ∧
    ((packSunPath addr).getD 0 0 ≠ 64 →
      (seqpacketListenPack true addr).unlinked =
        some (cstr ((packSunPath addr).take 107))) := by
  refine ⟨rfl, rfl, rfl, seqpacketListenPack_noUnlink addr,
    seqpacketListenPack_abstract addr, fun h => ?_⟩
  rw [seqpacketListenPack_unlink addr h, cstr_set107]

/-- Witness for C5 at the one-byte non-abstract path `"a"`. -/
theorem listener_unlink_behavior_witness :
    (packSunPath [97]).getD 0 0 ≠ 64 ∧
    (seqpacketListenPack true [97]).unlinked =
      some (cstr ((packSunPath [97]).take 107)) :=
  ⟨by decide, (listener_unlink_behavior [97] true true).2.2.2.2.2 (by decide)⟩

/-- Counterexample to C5 as stated: with the unlink option set and the
108-byte filesystem path "aa…a", the name passed to `unlink` is the 107-byte
truncation, not the target path itself. -/
theorem listener_unlink_counterexample :
    (seqpacketListenPack true (List.replicate 108 97)).unlinked =
      some (List.replicate 107 97) ∧
    List.replicate 107 97 ≠ List.replicate 108 97 := by
  exact ⟨by decide, by decide⟩

/-- C10: in the seqpacket listener's unlink step (non-abstract address,
unlink option set), byte 107 of the packed buffer is zeroed before the unlink
call — the zeroing persists into the buffer later bound — so the unlinked
name is determined by at most the first 107 bytes of the packed address and
has length at most 107; for a path whose packed length is the full 108 bytes,
the unlinked name differs from the address subsequently bound. -/
theorem seqpacket_unlink_truncation (bp : List Nat)
    (h : (packSunPath bp).getD 0 0 ≠ 64) :
    (seqpacketListenPack true bp).unlinked =
      some (cstr ((packSunPath bp).take 107)) ∧
    (seqpacketListenPack true bp).sunPath = (packSunPath bp).set 107 0 ∧
    (∀ u, (seqpacketListenPack true bp).unlinked = some u → u.length ≤ 107) ∧
    (108 ≤ bp.length →
      ∀ u, (seqpacketListenPack true bp).unlinked = some u →
        u ≠ (seqpacketListenPack true bp).sunPath) := by
  have h1 : (seqpacketListenPack true bp).unlinked =
      some (cstr ((packSunPath bp).take 107)) := by
    rw [seqpacketListenPack_unlink bp h, cstr_set107]
  have h2 : (seqpacketListenPack true bp).sunPath = (packSunPath bp).set 107 0 := by
    rw [seqpacketListenPack_unlink bp h]
  have hlen : ∀ u, (seqpacketListenPack true bp).unlinked = some u →
      u.length ≤ 107 := by
    intro u hu
    rw [h1] at hu
    injection hu with hu'
    subst hu'
    calc (cstr ((packSunPath bp).take 107)).length
        ≤ ((packSunPath bp).take 107).length := cstr_length_le _
      _ ≤ 107 := by rw [List.length_take]; omega
  refine ⟨h1, h2, hlen, fun _hfull u hu heq => ?_⟩
  have hu107 := hlen u hu
  have hu108 : u.length = 108 := by
    rw [heq, h2, List.length_set, packSunPath_length]
  omega

/-- Witness for C10 at the 108-byte path "aa…a". -/
theorem seqpacket_unlink_truncation_witness :
    (packSunPath (List.replicate 108 97)).getD 0 0 ≠ 64 ∧
    108 ≤ (List.replicate 108 97).length ∧
    cstr ((packSunPath (List.replicate 108 97)).take 107) ≠
      (seqpacketListenPack true (List.replicate 108 97)).sunPath :=
  ⟨by decide, by decide,
    (seqpacket_unlink_truncation (List.replicate 108 97) (by decide)).2.2.2
      (by decide) _
      ((seqpacket_unlink_truncation (List.replicate 108 97) (by decide)).1)⟩

end UnixPeer
